import Mathlib

/-!
Verification development for the GBA emulator core memory substrate:
system bus address decoding, BIOS protection, cycle lookup tables,
cartridge backup-media multiplexing, and the ARM LDR/STR cycle accounting.

Shallow embedding conventions:
- 32-bit machine values are `Nat` with explicit masks / `% 2 ^ 32` at the
  points where the Rust `u32` arithmetic wraps or casts.
- Byte memories (`BoxedMemory` in the source) are `Nat → Nat` stores holding
  bytes; multi-byte accesses compose little-endian.
- Collaborators whose code is not part of the verified sources (the I/O device
  block, the GPU memory, the Flash / EEPROM state machines, GPIO) are carried
  as abstract stores or abstract read functions; their writes are journaled.
- Reads that can recurse through the open-bus path take a fuel argument; every
  claim is proved for arbitrary fuel.
-/

set_option maxRecDepth 4000

namespace GbaCore

/-- Pointwise store update for byte memories. -/
def upd (m : Nat → Nat) (i v : Nat) : Nat → Nat := fun j => if j = i then v else m j

/-- Modelled from the spec: `BoxedMemory::read_16` (util.rs is not among the
sources) — little-endian composition of two bytes. -/
def mem_read_16 (m : Nat → Nat) (o : Nat) : Nat := m o + m (o + 1) * 0x100

/-- Modelled from the spec: `BoxedMemory::read_32` — little-endian composition
of four bytes. -/
def mem_read_32 (m : Nat → Nat) (o : Nat) : Nat :=
  m o + m (o + 1) * 0x100 + m (o + 2) * 0x10000 + m (o + 3) * 0x1000000

/-- Modelled from the spec: `BoxedMemory::write_8` — store one byte. -/
def mem_write_8 (m : Nat → Nat) (o v : Nat) : Nat → Nat := upd m o (v % 0x100)

/-- Modelled from the spec: `BoxedMemory::write_16` — store two bytes
little-endian. -/
def mem_write_16 (m : Nat → Nat) (o v : Nat) : Nat → Nat :=
  upd (upd m o (v % 0x100)) (o + 1) (v / 0x100 % 0x100)

/-- Modelled from the spec: `BoxedMemory::write_32` — store four bytes
little-endian. -/
def mem_write_32 (m : Nat → Nat) (o v : Nat) : Nat → Nat :=
  upd (upd (upd (upd m o (v % 0x100)) (o + 1) (v / 0x100 % 0x100))
    (o + 2) (v / 0x10000 % 0x100)) (o + 3) (v / 0x1000000 % 0x100)

/-! ### Address-space constants (sysbus.rs, `mod consts`) -/

def BIOS_ADDR : Nat := 0x00000000
def EWRAM_ADDR : Nat := 0x02000000
def IWRAM_ADDR : Nat := 0x03000000
def IOMEM_ADDR : Nat := 0x04000000
def PALRAM_ADDR : Nat := 0x05000000
def VRAM_ADDR : Nat := 0x06000000
def OAM_ADDR : Nat := 0x07000000
def GAMEPAK_WS0_LO : Nat := 0x08000000
def GAMEPAK_WS0_HI : Nat := 0x09000000
def GAMEPAK_WS1_LO : Nat := 0x0A000000
def GAMEPAK_WS1_HI : Nat := 0x0B000000
def GAMEPAK_WS2_LO : Nat := 0x0C000000
def GAMEPAK_WS2_HI : Nat := 0x0D000000
def SRAM_LO : Nat := 0x0E000000
def SRAM_HI : Nat := 0x0F000000

def PAGE_BIOS : Nat := 0x00
def PAGE_EWRAM : Nat := 0x02
def PAGE_IWRAM : Nat := 0x03
def PAGE_IOMEM : Nat := 0x04
def PAGE_PALRAM : Nat := 0x05
def PAGE_VRAM : Nat := 0x06
def PAGE_OAM : Nat := 0x07
def PAGE_GAMEPAK_WS0 : Nat := 0x08
def PAGE_GAMEPAK_WS1 : Nat := 0x0A
def PAGE_GAMEPAK_WS2 : Nat := 0x0C
def PAGE_SRAM_LO : Nat := 0x0E
def PAGE_SRAM_HI : Nat := 0x0F

/-! ### Access classification (sysbus.rs) -/

inductive MemoryAccessType
  | NonSeq
  | Seq
deriving DecidableEq, Repr

inductive MemoryAccessWidth
  | MemoryAccess8
  | MemoryAccess16
  | MemoryAccess32
deriving DecidableEq, Repr

/-- Modelled from the spec: the `WaitControl` bitfield view of the WAITCNT
register (iodev.rs is not among the sources). Fields are the structured
accessors `update_gamepak_waitstates` consumes: SRAM-wait and per-waitstate
first-access selectors are 2 bits, second-access selectors 1 bit. -/
structure WaitControl where
  sram_wait_control : Fin 4
  ws0_first_access : Fin 4
  ws0_second_access : Fin 2
  ws1_first_access : Fin 4
  ws1_second_access : Fin 2
  ws2_first_access : Fin 4
  ws2_second_access : Fin 2
deriving DecidableEq

/-! ### Cycle lookup tables (sysbus.rs, `CycleLookupTables`) -/

structure CycleLookupTables where
  n_cycles32 : Nat → Nat
  s_cycles32 : Nat → Nat
  n_cycles16 : Nat → Nat
  s_cycles16 : Nat → Nat

/-- `Default` impl: every entry is 1. -/
def CycleLookupTables.default : CycleLookupTables :=
  ⟨fun _ => 1, fun _ => 1, fun _ => 1, fun _ => 1⟩

def CycleLookupTables.setN32 (t : CycleLookupTables) (i v : Nat) : CycleLookupTables :=
  { t with n_cycles32 := upd t.n_cycles32 i v }

def CycleLookupTables.setS32 (t : CycleLookupTables) (i v : Nat) : CycleLookupTables :=
  { t with s_cycles32 := upd t.s_cycles32 i v }

def CycleLookupTables.setN16 (t : CycleLookupTables) (i v : Nat) : CycleLookupTables :=
  { t with n_cycles16 := upd t.n_cycles16 i v }

def CycleLookupTables.setS16 (t : CycleLookupTables) (i v : Nat) : CycleLookupTables :=
  { t with s_cycles16 := upd t.s_cycles16 i v }

/-- `CycleLookupTables::init`. -/
def CycleLookupTables.init (t : CycleLookupTables) : CycleLookupTables :=
  let t := t.setN32 PAGE_EWRAM 6
  let t := t.setS32 PAGE_EWRAM 6
  let t := t.setN16 PAGE_EWRAM 3
  let t := t.setS16 PAGE_EWRAM 3
  let t := t.setN32 PAGE_OAM 2
  let t := t.setS32 PAGE_OAM 2
  let t := t.setN16 PAGE_OAM 1
  let t := t.setS16 PAGE_OAM 1
  let t := t.setN32 PAGE_VRAM 2
  let t := t.setS32 PAGE_VRAM 2
  let t := t.setN16 PAGE_VRAM 1
  let t := t.setS16 PAGE_VRAM 1
  let t := t.setN32 PAGE_PALRAM 2
  let t := t.setS32 PAGE_PALRAM 2
  let t := t.setN16 PAGE_PALRAM 1
  let t := t.setS16 PAGE_PALRAM 1
  t

def S_GAMEPAK_NSEQ_CYCLES : Fin 4 → Nat := ![4, 3, 2, 8]
def S_GAMEPAK_WS0_SEQ_CYCLES : Fin 2 → Nat := ![2, 1]
def S_GAMEPAK_WS1_SEQ_CYCLES : Fin 2 → Nat := ![4, 1]
def S_GAMEPAK_WS2_SEQ_CYCLES : Fin 2 → Nat := ![8, 1]

/-- Body of the `for i in 0..2` loop of
`CycleLookupTables::update_gamepak_waitstates`. -/
def CycleLookupTables.gamepakStep (t : CycleLookupTables) (waitcnt : WaitControl)
    (i : Nat) : CycleLookupTables :=
  let t := t.setN16 (PAGE_GAMEPAK_WS0 + i) (1 + S_GAMEPAK_NSEQ_CYCLES waitcnt.ws0_first_access)
  let t := t.setS16 (PAGE_GAMEPAK_WS0 + i) (1 + S_GAMEPAK_WS0_SEQ_CYCLES waitcnt.ws0_second_access)
  let t := t.setN16 (PAGE_GAMEPAK_WS1 + i) (1 + S_GAMEPAK_NSEQ_CYCLES waitcnt.ws1_first_access)
  let t := t.setS16 (PAGE_GAMEPAK_WS1 + i) (1 + S_GAMEPAK_WS1_SEQ_CYCLES waitcnt.ws1_second_access)
  let t := t.setN16 (PAGE_GAMEPAK_WS2 + i) (1 + S_GAMEPAK_NSEQ_CYCLES waitcnt.ws2_first_access)
  let t := t.setS16 (PAGE_GAMEPAK_WS2 + i) (1 + S_GAMEPAK_WS2_SEQ_CYCLES waitcnt.ws2_second_access)
  let t := t.setN32 (PAGE_GAMEPAK_WS0 + i)
    (t.n_cycles16 (PAGE_GAMEPAK_WS0 + i) + t.s_cycles16 (PAGE_GAMEPAK_WS0 + i))
  let t := t.setN32 (PAGE_GAMEPAK_WS1 + i)
    (t.n_cycles16 (PAGE_GAMEPAK_WS1 + i) + t.s_cycles16 (PAGE_GAMEPAK_WS1 + i))
  let t := t.setN32 (PAGE_GAMEPAK_WS2 + i)
    (t.n_cycles16 (PAGE_GAMEPAK_WS2 + i) + t.s_cycles16 (PAGE_GAMEPAK_WS2 + i))
  let t := t.setS32 (PAGE_GAMEPAK_WS0 + i) (2 * t.s_cycles16 (PAGE_GAMEPAK_WS0 + i))
  let t := t.setS32 (PAGE_GAMEPAK_WS1 + i) (2 * t.s_cycles16 (PAGE_GAMEPAK_WS1 + i))
  let t := t.setS32 (PAGE_GAMEPAK_WS2 + i) (2 * t.s_cycles16 (PAGE_GAMEPAK_WS2 + i))
  t

/-- `CycleLookupTables::update_gamepak_waitstates`. The SRAM block reproduces
the source lines verbatim: `n_cycles32`/`s_cycles32` are written (twice) only
at `PAGE_SRAM_LO` and `n_cycles16`/`s_cycles16` (twice) only at
`PAGE_SRAM_HI`. -/
def CycleLookupTables.update_gamepak_waitstates (t : CycleLookupTables)
    (waitcnt : WaitControl) : CycleLookupTables :=
  let sram_wait_cycles := 1 + S_GAMEPAK_NSEQ_CYCLES waitcnt.sram_wait_control
  let t := t.setN32 PAGE_SRAM_LO sram_wait_cycles
  let t := t.setN32 PAGE_SRAM_LO sram_wait_cycles
  let t := t.setN16 PAGE_SRAM_HI sram_wait_cycles
  let t := t.setN16 PAGE_SRAM_HI sram_wait_cycles
  let t := t.setS32 PAGE_SRAM_LO sram_wait_cycles
  let t := t.setS32 PAGE_SRAM_LO sram_wait_cycles
  let t := t.setS16 PAGE_SRAM_HI sram_wait_cycles
  let t := t.setS16 PAGE_SRAM_HI sram_wait_cycles
  let t := t.gamepakStep waitcnt 0
  let t := t.gamepakStep waitcnt 1
  t

/-! ### Cartridge data model (cartridge/mod.rs) -/

def GPIO_PORT_DATA : Nat := 0xC4
def GPIO_PORT_DIRECTION : Nat := 0xC6
def GPIO_PORT_CONTROL : Nat := 0xC8
def EEPROM_BASE_ADDR : Nat := 0xDFFFF00

/-- Abstract view of the Flash command state machine (backup/flash.rs is not
among the sources): reads go through an abstract function, writes are
journaled. -/
structure FlashState where
  read_fn : Nat → Nat
  write_log : List (Nat × Nat)

/-- Abstract view of the EEPROM serial controller (backup/eeprom.rs is not
among the sources): `read_half` goes through an abstract function, writes are
journaled. -/
structure EepromState where
  read_half_fn : Nat → Nat
  write_log : List (Nat × Nat)

/-- Abstract view of the GPIO register file (gpio.rs is not among the
sources). -/
structure Gpio where
  read_fn : Nat → Nat
  readable : Bool
  write_log : List (Nat × Nat)

inductive BackupMedia
  | Sram (memory : Nat → Nat)
  | Flash (flash : FlashState)
  | Eeprom (spi : EepromState)
  | Undetected

/-- `Cartridge`. `size` stands for both the `size` field and `bytes.len()`
(the builder sets them equal); `bytes` is the ROM byte store. -/
structure Cartridge where
  bytes : Nat → Nat
  size : Nat
  gpio : Option Gpio
  backup : BackupMedia

def isEeprom : BackupMedia → Bool
  | .Eeprom _ => true
  | _ => false

/-! ### CPU view and system bus state (sysbus.rs, `SysBus`) -/

inductive CpuState
  | ARM
  | THUMB
deriving DecidableEq, Repr

/-- The CPU fields the bus consults through the `gba` back-reference:
program counter, CPSR state bit, and the two pipeline opcodes. -/
structure Arm7tdmi where
  pc : Nat
  cpsr_state : CpuState
  prefetched_opcode : Nat
  decoded_opcode : Nat

/-- `SysBus`. The I/O device block and the GPU memory are collaborators whose
code is not among the sources; both are modelled as abstract byte stores
addressed by the offset the bus hands them. -/
structure SysBus where
  cpu : Arm7tdmi
  bios_value : Nat
  bios : Nat → Nat
  onboard_work_ram : Nat → Nat
  internal_work_ram : Nat → Nat
  io : Nat → Nat
  gpu_mem : Nat → Nat
  cartridge : Cartridge
  cycle_luts : CycleLookupTables

/-- `SysBus::on_waitcnt_written`. -/
def SysBus.on_waitcnt_written (s : SysBus) (waitcnt : WaitControl) : SysBus :=
  { s with cycle_luts := s.cycle_luts.update_gamepak_waitstates waitcnt }

/-- `SysBus::get_cycles`. -/
def SysBus.get_cycles (s : SysBus) (addr : Nat) (access : MemoryAccessType)
    (width : MemoryAccessWidth) : Nat :=
  let page := addr >>> 24
  if 0xF < page then 1
  else
    match width with
    | .MemoryAccess8 | .MemoryAccess16 =>
      match access with
      | .NonSeq => s.cycle_luts.n_cycles16 page
      | .Seq => s.cycle_luts.s_cycles16 page
    | .MemoryAccess32 =>
      match access with
      | .NonSeq => s.cycle_luts.n_cycles32 page
      | .Seq => s.cycle_luts.s_cycles32 page

/-! ### General mask arithmetic -/

/-- Bit masks of the shape `2 ^ n - 2 ^ k` (a contiguous window of bits
`k..n-1`) act arithmetically: `a &&& (2 ^ n - 2 ^ k)` keeps `a mod 2 ^ n`,
cleared below bit `k`. All address masks of the bus are of this shape. -/
theorem land_window (a n k : Nat) (hk : k ≤ n) :
    a &&& (2 ^ n - 2 ^ k) = a % 2 ^ n / 2 ^ k * 2 ^ k := by
  have hmask : (2 : Nat) ^ n - 2 ^ k = (2 ^ (n - k) - 1) <<< k := by
    rw [Nat.shiftLeft_eq, Nat.sub_mul, ← Nat.pow_add, one_mul]
    congr 2
    omega
  have hrhs : a % 2 ^ n / 2 ^ k * 2 ^ k = ((a % 2 ^ n) >>> k) <<< k := by
    rw [Nat.shiftLeft_eq, Nat.shiftRight_eq_div_pow]
  rw [hmask, hrhs]
  apply Nat.eq_of_testBit_eq
  intro i
  simp only [Nat.testBit_and, Nat.testBit_shiftLeft, Nat.testBit_shiftRight,
    Nat.testBit_two_pow_sub_one, Nat.testBit_mod_two_pow]
  by_cases hki : k ≤ i
  · have hdec : (decide (i - k < n - k)) = (decide (i < n)) := by
      rw [decide_eq_decide]
      omega
    rw [hdec]
    cases hab : a.testBit i <;> simp [hki, hab]
  · simp [hki]

theorem land_ff000000 (a : Nat) :
    a &&& 0xff000000 = a % 0x100000000 / 0x1000000 * 0x1000000 := by
  have h := land_window a 32 24 (by omega)
  norm_num at h
  exact h

theorem land_fffffffc (a : Nat) : a &&& 0xfffffffc = a % 0x100000000 / 4 * 4 := by
  have h := land_window a 32 2 (by omega)
  norm_num at h
  exact h

theorem land_fffffffe (a : Nat) : a &&& 0xfffffffe = a % 0x100000000 / 2 * 2 := by
  have h := land_window a 32 1 (by omega)
  norm_num at h
  exact h

theorem land_ffff (a : Nat) : a &&& 0xffff = a % 0x10000 := by
  have h := land_window a 16 0 (by omega)
  norm_num at h
  exact h

theorem land_fffe (a : Nat) : a &&& 0xfffe = a % 0x10000 / 2 * 2 := by
  have h := land_window a 16 1 (by omega)
  norm_num at h
  exact h

theorem land_fffc (a : Nat) : a &&& 0xfffc = a % 0x10000 / 4 * 4 := by
  have h := land_window a 16 2 (by omega)
  norm_num at h
  exact h

theorem land_7ff (a : Nat) : a &&& 0x7ff = a % 0x800 := by
  have h := land_window a 11 0 (by omega)
  norm_num at h
  exact h

theorem land_7fe (a : Nat) : a &&& 0x7fe = a % 0x800 / 2 * 2 := by
  have h := land_window a 11 1 (by omega)
  norm_num at h
  exact h

theorem land_7fc (a : Nat) : a &&& 0x7fc = a % 0x800 / 4 * 4 := by
  have h := land_window a 11 2 (by omega)
  norm_num at h
  exact h

theorem land_3ffff (a : Nat) : a &&& 0x3ffff = a % 0x40000 := by
  have h := land_window a 18 0 (by omega)
  norm_num at h
  exact h

theorem land_3fffe (a : Nat) : a &&& 0x3fffe = a % 0x40000 / 2 * 2 := by
  have h := land_window a 18 1 (by omega)
  norm_num at h
  exact h

theorem land_3fffc (a : Nat) : a &&& 0x3fffc = a % 0x40000 / 4 * 4 := by
  have h := land_window a 18 2 (by omega)
  norm_num at h
  exact h

theorem land_7fff (a : Nat) : a &&& 0x7fff = a % 0x8000 := by
  have h := land_window a 15 0 (by omega)
  norm_num at h
  exact h

theorem land_7ffe (a : Nat) : a &&& 0x7ffe = a % 0x8000 / 2 * 2 := by
  have h := land_window a 15 1 (by omega)
  norm_num at h
  exact h

theorem land_7ffc (a : Nat) : a &&& 0x7ffc = a % 0x8000 / 4 * 4 := by
  have h := land_window a 15 2 (by omega)
  norm_num at h
  exact h

theorem land_1ffffff (a : Nat) : a &&& 0x1ffffff = a % 0x2000000 := by
  have h := land_window a 25 0 (by omega)
  norm_num at h
  exact h

theorem land_three (a : Nat) : a &&& 3 = a % 4 := by
  have h := land_window a 2 0 (by omega)
  norm_num at h
  exact h

theorem land_two (a : Nat) : a &&& 2 = a % 4 / 2 * 2 := by
  have h := land_window a 2 1 (by omega)
  norm_num at h
  exact h

/-! ### Cartridge reads and writes (cartridge/mod.rs, `impl Bus for Cartridge`) -/

/-- `is_gpio_access`. -/
def is_gpio_access (addr : Nat) : Bool :=
  let m := addr &&& 0x1ffffff
  m == GPIO_PORT_DATA || m == GPIO_PORT_DIRECTION || m == GPIO_PORT_CONTROL

/-- `Cartridge::read_8`. -/
def Cartridge.read_8 (c : Cartridge) (addr : Nat) : Nat :=
  let offset := addr &&& 0x1ffffff
  if addr &&& 0xff000000 = SRAM_LO ∨ addr &&& 0xff000000 = SRAM_HI then
    match c.backup with
    | .Sram memory => memory (addr &&& 0x7fff)
    | .Flash flash => flash.read_fn addr
    | _ => 0
  else
    if c.size ≤ offset then 0xDD
    else c.bytes offset

/-- Modelled from the spec: the `Bus` trait default `default_read_16`
(bus.rs is not among the sources) — two byte reads composed little-endian. -/
def Cartridge.default_read_16 (c : Cartridge) (addr : Nat) : Nat :=
  c.read_8 addr + c.read_8 (addr + 1) * 0x100

/-- Tail of `Cartridge::read_16` after the GPIO test: the EEPROM window test
and the fallthrough. -/
def Cartridge.read_16_tail (c : Cartridge) (addr : Nat) : Nat :=
  if addr &&& 0xff000000 = GAMEPAK_WS2_HI
      ∧ (c.size ≤ 16 * 1024 * 1024 ∨ EEPROM_BASE_ADDR ≤ addr) then
    match c.backup with
    | .Eeprom spi => spi.read_half_fn addr
    | _ => c.default_read_16 addr
  else c.default_read_16 addr

/-- `Cartridge::read_16`. -/
def Cartridge.read_16 (c : Cartridge) (addr : Nat) : Nat :=
  match c.gpio with
  | some gpio =>
    if is_gpio_access addr then gpio.read_fn (addr &&& 0x1ffffff)
    else c.read_16_tail addr
  | none => c.read_16_tail addr

/-- Modelled from the spec: the `Bus` trait default `read_32` — two half
reads composed little-endian. -/
def Cartridge.read_32 (c : Cartridge) (addr : Nat) : Nat :=
  c.read_16 addr + c.read_16 (addr + 2) * 0x10000

/-- `Cartridge::write_8`. -/
def Cartridge.write_8 (c : Cartridge) (addr value : Nat) : Cartridge :=
  if addr &&& 0xff000000 = SRAM_LO ∨ addr &&& 0xff000000 = SRAM_HI then
    match c.backup with
    | .Flash flash =>
      { c with backup := .Flash { flash with write_log := (addr, value % 0x100) :: flash.write_log } }
    | .Sram memory =>
      { c with backup := .Sram (upd memory (addr &&& 0x7fff) (value % 0x100)) }
    | _ => c
  else c

/-- Modelled from the spec: the `Bus` trait default `default_write_16` — two
byte writes little-endian. -/
def Cartridge.default_write_16 (c : Cartridge) (addr value : Nat) : Cartridge :=
  (c.write_8 addr (value % 0x100)).write_8 (addr + 1) (value / 0x100 % 0x100)

/-- Tail of `Cartridge::write_16` after the GPIO test. -/
def Cartridge.write_16_tail (c : Cartridge) (addr value : Nat) : Cartridge :=
  if addr &&& 0xff000000 = GAMEPAK_WS2_HI
      ∧ (c.size ≤ 16 * 1024 * 1024 ∨ EEPROM_BASE_ADDR ≤ addr) then
    match c.backup with
    | .Eeprom spi =>
      { c with backup := .Eeprom { spi with write_log := (addr, value % 0x10000) :: spi.write_log } }
    | _ => c.default_write_16 addr value
  else c.default_write_16 addr value

/-- `Cartridge::write_16`. -/
def Cartridge.write_16 (c : Cartridge) (addr value : Nat) : Cartridge :=
  match c.gpio with
  | some gpio =>
    if is_gpio_access addr then
      { c with gpio := some { gpio with write_log := (addr &&& 0x1ffffff, value % 0x10000) :: gpio.write_log } }
    else c.write_16_tail addr value
  | none => c.write_16_tail addr value

/-- Modelled from the spec: the `Bus` trait default `write_32` — two half
writes little-endian. -/
def Cartridge.write_32 (c : Cartridge) (addr value : Nat) : Cartridge :=
  (c.write_16 addr (value % 0x10000)).write_16 (addr + 2) (value / 0x10000 % 0x10000)

/-- `Cartridge::debug_read_8` (`self.bytes[offset]`): `none` models the
out-of-bounds index panic when `offset >= bytes.len()`. -/
def Cartridge.debug_read_8 (c : Cartridge) (addr : Nat) : Option Nat :=
  let offset := addr &&& 0x1ffffff
  if offset < c.size then some (c.bytes offset) else none

/-- Which unit a 16-bit cartridge access reaches. -/
inductive CartAccessRoute
  | GpioUnit
  | EepromUnit
  | Fallthrough
deriving DecidableEq, Repr

/-- Routing observer mirroring the branch structure of `Cartridge::read_16`:
which unit serves the access. -/
def Cartridge.read_16_route (c : Cartridge) (addr : Nat) : CartAccessRoute :=
  match c.gpio with
  | some _ =>
    if is_gpio_access addr then .GpioUnit
    else if addr &&& 0xff000000 = GAMEPAK_WS2_HI
        ∧ (c.size ≤ 16 * 1024 * 1024 ∨ EEPROM_BASE_ADDR ≤ addr) then
      match c.backup with
      | .Eeprom _ => .EepromUnit
      | _ => .Fallthrough
    else .Fallthrough
  | none =>
    if addr &&& 0xff000000 = GAMEPAK_WS2_HI
        ∧ (c.size ≤ 16 * 1024 * 1024 ∨ EEPROM_BASE_ADDR ≤ addr) then
      match c.backup with
      | .Eeprom _ => .EepromUnit
      | _ => .Fallthrough
    else .Fallthrough

/-- Routing observer mirroring the branch structure of `Cartridge::write_16`. -/
def Cartridge.write_16_route (c : Cartridge) (addr : Nat) : CartAccessRoute :=
  match c.gpio with
  | some _ =>
    if is_gpio_access addr then .GpioUnit
    else if addr &&& 0xff000000 = GAMEPAK_WS2_HI
        ∧ (c.size ≤ 16 * 1024 * 1024 ∨ EEPROM_BASE_ADDR ≤ addr) then
      match c.backup with
      | .Eeprom _ => .EepromUnit
      | _ => .Fallthrough
    else .Fallthrough
  | none =>
    if addr &&& 0xff000000 = GAMEPAK_WS2_HI
        ∧ (c.size ≤ 16 * 1024 * 1024 ∨ EEPROM_BASE_ADDR ≤ addr) then
      match c.backup with
      | .Eeprom _ => .EepromUnit
      | _ => .Fallthrough
    else .Fallthrough

/-! ### Open bus and SysBus reads (sysbus.rs, `read_invalid!` and `impl Bus`) -/

/-- `load_shifted`. -/
def load_shifted (addr value : Nat) : Nat := value >>> ((addr &&& 3) <<< 3)

/-- `read_invalid!(open_bus_impl)`: the synthesised open-bus word, before
`load_shifted`. `readHalf` is the nested `self.read_16(r15 + 6)` call. -/
def open_bus_value (readHalf : SysBus → Nat → Nat × SysBus) (s : SysBus) :
    Nat × SysBus :=
  match s.cpu.cpsr_state with
  | .ARM => (s.cpu.prefetched_opcode, s)
  | .THUMB =>
    let decoded := s.cpu.decoded_opcode &&& 0xffff
    let prefetched := s.cpu.prefetched_opcode &&& 0xffff
    let r15 := s.cpu.pc
    let page_r15 := r15 >>> 24
    if page_r15 = PAGE_EWRAM ∨ page_r15 = PAGE_PALRAM ∨ page_r15 = PAGE_VRAM
        ∨ (PAGE_GAMEPAK_WS0 ≤ page_r15 ∧ page_r15 ≤ PAGE_GAMEPAK_WS2) then
      (prefetched * 0x10000 + prefetched, s)
    else if page_r15 = PAGE_BIOS ∨ page_r15 = PAGE_OAM then
      if r15 &&& 3 = 0 then
        let res := readHalf s (r15 + 6)
        (res.1 * 0x10000 + prefetched, res.2)
      else (prefetched * 0x10000 + decoded, s)
    else if page_r15 = PAGE_IWRAM then
      if r15 &&& 3 = 0 then (decoded * 0x10000 + prefetched, s)
      else (prefetched * 0x10000 + decoded, s)
    else (prefetched * 0x10000 + prefetched, s)

/-- `SysBus::read_16` (fuel-indexed: the open-bus path of a THUMB CPU whose
`pc` sits 4-byte-aligned in BIOS or OAM recursively reads `pc + 6`). -/
def SysBus.read_16F : Nat → SysBus → Nat → Nat × SysBus
  | 0, s, _ => (0, s)
  | fuel + 1, s, addr =>
    let aligned := addr &&& 0xfffffffe
    if addr &&& 0xff000000 = BIOS_ADDR then
      if 0x3ffe < aligned then
        let res := open_bus_value (fun s2 a2 => SysBus.read_16F fuel s2 a2) s
        (load_shifted addr res.1 % 0x10000, res.2)
      else
        if s.cpu.pc < 0x4000 then
          let value := mem_read_32 s.bios (addr &&& 0xfffffffc)
          ((value >>> ((addr &&& 2) * 8)) % 0x10000, { s with bios_value := value })
        else
          ((s.bios_value >>> ((addr &&& 2) * 8)) % 0x10000, s)
    else if addr &&& 0xff000000 = EWRAM_ADDR then
      (mem_read_16 s.onboard_work_ram (addr &&& 0x3fffe), s)
    else if addr &&& 0xff000000 = IWRAM_ADDR then
      (mem_read_16 s.internal_work_ram (addr &&& 0x7ffe), s)
    else if addr &&& 0xff000000 = IOMEM_ADDR then
      let a := if addr &&& 0xfffe = 0x8000 then 0x800 else addr &&& 0x7fe
      (mem_read_16 s.io a, s)
    else if addr &&& 0xff000000 = PALRAM_ADDR ∨ addr &&& 0xff000000 = VRAM_ADDR
        ∨ addr &&& 0xff000000 = OAM_ADDR then
      (mem_read_16 s.gpu_mem aligned, s)
    else if addr &&& 0xff000000 = GAMEPAK_WS0_LO ∨ addr &&& 0xff000000 = GAMEPAK_WS0_HI
        ∨ addr &&& 0xff000000 = GAMEPAK_WS1_LO ∨ addr &&& 0xff000000 = GAMEPAK_WS1_HI
        ∨ addr &&& 0xff000000 = GAMEPAK_WS2_LO then
      (s.cartridge.read_16 aligned, s)
    else if addr &&& 0xff000000 = GAMEPAK_WS2_HI then
      (s.cartridge.read_16 aligned, s)
    else if addr &&& 0xff000000 = SRAM_LO ∨ addr &&& 0xff000000 = SRAM_HI then
      (s.cartridge.read_16 aligned, s)
    else
      let res := open_bus_value (fun s2 a2 => SysBus.read_16F fuel s2 a2) s
      (load_shifted addr res.1 % 0x10000, res.2)

/-- `SysBus::read_32` (fuel-indexed like `read_16F`). -/
def SysBus.read_32F (fuel : Nat) (s : SysBus) (addr : Nat) : Nat × SysBus :=
  match fuel with
  | 0 => (0, s)
  | fuel + 1 =>
    let aligned := addr &&& 0xfffffffc
    if addr &&& 0xff000000 = BIOS_ADDR then
      if 0x3ffc < aligned then
        let res := open_bus_value (fun s2 a2 => SysBus.read_16F fuel s2 a2) s
        (load_shifted addr res.1, res.2)
      else
        if s.cpu.pc < 0x4000 then
          let value := mem_read_32 s.bios aligned
          (value, { s with bios_value := value })
        else
          (s.bios_value, s)
    else if addr &&& 0xff000000 = EWRAM_ADDR then
      (mem_read_32 s.onboard_work_ram (addr &&& 0x3fffc), s)
    else if addr &&& 0xff000000 = IWRAM_ADDR then
      (mem_read_32 s.internal_work_ram (addr &&& 0x7ffc), s)
    else if addr &&& 0xff000000 = IOMEM_ADDR then
      let a := if addr &&& 0xfffc = 0x8000 then 0x800 else addr &&& 0x7fc
      (mem_read_32 s.io a, s)
    else if addr &&& 0xff000000 = PALRAM_ADDR ∨ addr &&& 0xff000000 = VRAM_ADDR
        ∨ addr &&& 0xff000000 = OAM_ADDR then
      (mem_read_32 s.gpu_mem aligned, s)
    else if addr &&& 0xff000000 = GAMEPAK_WS0_LO ∨ addr &&& 0xff000000 = GAMEPAK_WS0_HI
        ∨ addr &&& 0xff000000 = GAMEPAK_WS1_LO ∨ addr &&& 0xff000000 = GAMEPAK_WS1_HI
        ∨ addr &&& 0xff000000 = GAMEPAK_WS2_LO then
      (s.cartridge.read_32 aligned, s)
    else if addr &&& 0xff000000 = GAMEPAK_WS2_HI then
      (s.cartridge.read_32 aligned, s)
    else if addr &&& 0xff000000 = SRAM_LO ∨ addr &&& 0xff000000 = SRAM_HI then
      (s.cartridge.read_32 aligned, s)
    else
      let res := open_bus_value (fun s2 a2 => SysBus.read_16F fuel s2 a2) s
      (load_shifted addr res.1, res.2)

/-- `SysBus::read_8` (fuel-indexed like `read_16F`). -/
def SysBus.read_8F (fuel : Nat) (s : SysBus) (addr : Nat) : Nat × SysBus :=
  match fuel with
  | 0 => (0, s)
  | fuel + 1 =>
    if addr &&& 0xff000000 = BIOS_ADDR then
      if 0x3fff < addr then
        let res := open_bus_value (fun s2 a2 => SysBus.read_16F fuel s2 a2) s
        (load_shifted addr res.1 % 0x100, res.2)
      else
        if s.cpu.pc < 0x4000 then
          let value := mem_read_32 s.bios (addr &&& 0xfffffffc)
          ((value >>> ((addr &&& 3) * 8)) % 0x100, { s with bios_value := value })
        else
          ((s.bios_value >>> ((addr &&& 3) * 8)) % 0x100, s)
    else if addr &&& 0xff000000 = EWRAM_ADDR then
      (s.onboard_work_ram (addr &&& 0x3ffff), s)
    else if addr &&& 0xff000000 = IWRAM_ADDR then
      (s.internal_work_ram (addr &&& 0x7fff), s)
    else if addr &&& 0xff000000 = IOMEM_ADDR then
      let a := if addr &&& 0xffff = 0x8000 then 0x800 else addr &&& 0x7ff
      (s.io a, s)
    else if addr &&& 0xff000000 = PALRAM_ADDR ∨ addr &&& 0xff000000 = VRAM_ADDR
        ∨ addr &&& 0xff000000 = OAM_ADDR then
      (s.gpu_mem addr, s)
    else if addr &&& 0xff000000 = GAMEPAK_WS0_LO ∨ addr &&& 0xff000000 = GAMEPAK_WS0_HI
        ∨ addr &&& 0xff000000 = GAMEPAK_WS1_LO ∨ addr &&& 0xff000000 = GAMEPAK_WS1_HI
        ∨ addr &&& 0xff000000 = GAMEPAK_WS2_LO then
      (s.cartridge.read_8 addr, s)
    else if addr &&& 0xff000000 = GAMEPAK_WS2_HI then
      (s.cartridge.read_8 addr, s)
    else if addr &&& 0xff000000 = SRAM_LO ∨ addr &&& 0xff000000 = SRAM_HI then
      (s.cartridge.read_8 addr, s)
    else
      let res := open_bus_value (fun s2 a2 => SysBus.read_16F fuel s2 a2) s
      (load_shifted addr res.1 % 0x100, res.2)

/-! ### SysBus writes (sysbus.rs, `impl Bus`) -/

/-- `SysBus::write_32`. -/
def SysBus.write_32 (s : SysBus) (addr value : Nat) : SysBus :=
  if addr &&& 0xff000000 = BIOS_ADDR then s
  else if addr &&& 0xff000000 = EWRAM_ADDR then
    { s with onboard_work_ram := mem_write_32 s.onboard_work_ram (addr &&& 0x3fffc) value }
  else if addr &&& 0xff000000 = IWRAM_ADDR then
    { s with internal_work_ram := mem_write_32 s.internal_work_ram (addr &&& 0x7ffc) value }
  else if addr &&& 0xff000000 = IOMEM_ADDR then
    let a := if addr &&& 0xfffc = 0x8000 then 0x800 else addr &&& 0x7fc
    { s with io := mem_write_32 s.io a value }
  else if addr &&& 0xff000000 = PALRAM_ADDR ∨ addr &&& 0xff000000 = VRAM_ADDR
      ∨ addr &&& 0xff000000 = OAM_ADDR then
    { s with gpu_mem := mem_write_32 s.gpu_mem addr value }
  else if addr &&& 0xff000000 = GAMEPAK_WS0_LO then
    { s with cartridge := s.cartridge.write_32 addr value }
  else if addr &&& 0xff000000 = GAMEPAK_WS2_HI then
    { s with cartridge := s.cartridge.write_32 addr value }
  else if addr &&& 0xff000000 = SRAM_LO ∨ addr &&& 0xff000000 = SRAM_HI then
    { s with cartridge := s.cartridge.write_32 addr value }
  else s

/-- `SysBus::write_16`. -/
def SysBus.write_16 (s : SysBus) (addr value : Nat) : SysBus :=
  if addr &&& 0xff000000 = BIOS_ADDR then s
  else if addr &&& 0xff000000 = EWRAM_ADDR then
    { s with onboard_work_ram := mem_write_16 s.onboard_work_ram (addr &&& 0x3fffe) value }
  else if addr &&& 0xff000000 = IWRAM_ADDR then
    { s with internal_work_ram := mem_write_16 s.internal_work_ram (addr &&& 0x7ffe) value }
  else if addr &&& 0xff000000 = IOMEM_ADDR then
    let a := if addr &&& 0xfffe = 0x8000 then 0x800 else addr &&& 0x7fe
    { s with io := mem_write_16 s.io a value }
  else if addr &&& 0xff000000 = PALRAM_ADDR ∨ addr &&& 0xff000000 = VRAM_ADDR
      ∨ addr &&& 0xff000000 = OAM_ADDR then
    { s with gpu_mem := mem_write_16 s.gpu_mem addr value }
  else if addr &&& 0xff000000 = GAMEPAK_WS0_LO then
    { s with cartridge := s.cartridge.write_16 addr value }
  else if addr &&& 0xff000000 = GAMEPAK_WS2_HI then
    { s with cartridge := s.cartridge.write_16 addr value }
  else if addr &&& 0xff000000 = SRAM_LO ∨ addr &&& 0xff000000 = SRAM_HI then
    { s with cartridge := s.cartridge.write_16 addr value }
  else s

/-- `SysBus::write_8`. -/
def SysBus.write_8 (s : SysBus) (addr value : Nat) : SysBus :=
  if addr &&& 0xff000000 = BIOS_ADDR then s
  else if addr &&& 0xff000000 = EWRAM_ADDR then
    { s with onboard_work_ram := mem_write_8 s.onboard_work_ram (addr &&& 0x3ffff) value }
  else if addr &&& 0xff000000 = IWRAM_ADDR then
    { s with internal_work_ram := mem_write_8 s.internal_work_ram (addr &&& 0x7fff) value }
  else if addr &&& 0xff000000 = IOMEM_ADDR then
    let a := if addr &&& 0xffff = 0x8000 then 0x800 else addr &&& 0x7ff
    { s with io := mem_write_8 s.io a value }
  else if addr &&& 0xff000000 = PALRAM_ADDR ∨ addr &&& 0xff000000 = VRAM_ADDR
      ∨ addr &&& 0xff000000 = OAM_ADDR then
    { s with gpu_mem := mem_write_8 s.gpu_mem addr value }
  else if addr &&& 0xff000000 = GAMEPAK_WS0_LO then
    { s with cartridge := s.cartridge.write_8 addr value }
  else if addr &&& 0xff000000 = GAMEPAK_WS2_HI then
    { s with cartridge := s.cartridge.write_8 addr value }
  else if addr &&& 0xff000000 = SRAM_LO ∨ addr &&& 0xff000000 = SRAM_HI then
    { s with cartridge := s.cartridge.write_8 addr value }
  else s

/-- `SysBus::debug_read_8` (`impl DebugRead for SysBus`). The BIOS branch
forwards to `BoxedMemory::debug_read_8`, whose direct indexing of the 16 KiB
array is modelled from the spec as `none` past its end; the I/O and GPU
collaborator debug reads are total. -/
def SysBus.debug_read_8 (s : SysBus) (addr : Nat) : Option Nat :=
  if addr &&& 0xff000000 = BIOS_ADDR then
    if addr < 0x4000 then some (s.bios addr) else none
  else if addr &&& 0xff000000 = EWRAM_ADDR then
    some (s.onboard_work_ram (addr &&& 0x3ffff))
  else if addr &&& 0xff000000 = IWRAM_ADDR then
    some (s.internal_work_ram (addr &&& 0x7fff))
  else if addr &&& 0xff000000 = IOMEM_ADDR then
    let a := if addr &&& 0xffff = 0x8000 then 0x800 else addr &&& 0x7ff
    some (s.io a)
  else if addr &&& 0xff000000 = PALRAM_ADDR ∨ addr &&& 0xff000000 = VRAM_ADDR
      ∨ addr &&& 0xff000000 = OAM_ADDR then
    some (s.gpu_mem addr)
  else if addr &&& 0xff000000 = GAMEPAK_WS0_LO ∨ addr &&& 0xff000000 = GAMEPAK_WS0_HI
      ∨ addr &&& 0xff000000 = GAMEPAK_WS1_LO ∨ addr &&& 0xff000000 = GAMEPAK_WS1_HI
      ∨ addr &&& 0xff000000 = GAMEPAK_WS2_LO then
    s.cartridge.debug_read_8 addr
  else if addr &&& 0xff000000 = GAMEPAK_WS2_HI then
    s.cartridge.debug_read_8 addr
  else if addr &&& 0xff000000 = SRAM_LO ∨ addr &&& 0xff000000 = SRAM_HI then
    s.cartridge.debug_read_8 addr
  else some 0

/-! ### Shared concrete states for witnesses and counterexamples -/

def cart0 : Cartridge := ⟨fun _ => 0, 0, none, .Undetected⟩

def cpu0 : Arm7tdmi := ⟨0x08000000, .ARM, 0xE1A00000, 0xE1A00000⟩

def bus0 : SysBus :=
  ⟨cpu0, 0, fun _ => 0, fun _ => 0, fun _ => 0, fun _ => 0, fun _ => 0, cart0,
    CycleLookupTables.default.init⟩

def waitcnt0 : WaitControl := ⟨0, 0, 0, 0, 0, 0, 0⟩

/-! ### Little-endian store roundtrips -/

theorem mem_read_write_8 (m : Nat → Nat) (o v : Nat) (hv : v < 0x100) :
    mem_write_8 m o v o = v := by
  simp [mem_write_8, upd]
  omega

theorem mem_read_write_16 (m : Nat → Nat) (o v : Nat) (hv : v < 0x10000) :
    mem_read_16 (mem_write_16 m o v) o = v := by
  simp [mem_read_16, mem_write_16, upd]
  omega

theorem mem_read_write_32 (m : Nat → Nat) (o v : Nat) (hv : v < 0x100000000) :
    mem_read_32 (mem_write_32 m o v) o = v := by
  simp [mem_read_32, mem_write_32, upd]
  omega

/-! ### Claim C1 — BIOS read protection -/

/-- C1: for a BIOS-region address (top byte 0x00, offset inside the 16 KiB
BIOS, i.e. `addr < 0x4000`): when `pc >= 0x4000` all three read widths return
the cached `bios_value` shifted per access width and leave the state (hence
the cache) unchanged; when `pc < 0x4000` they return the freshly read BIOS
word (shifted per access width) and update the cache to that word. -/
theorem c1_bios_protection (fuel : Nat) (s : SysBus) (addr : Nat)
    (h : addr < 0x4000) :
    (0x4000 ≤ s.cpu.pc →
      SysBus.read_32F (fuel + 1) s addr = (s.bios_value, s)
      ∧ SysBus.read_16F (fuel + 1) s addr
          = ((s.bios_value >>> ((addr &&& 2) * 8)) % 0x10000, s)
      ∧ SysBus.read_8F (fuel + 1) s addr
          = ((s.bios_value >>> ((addr &&& 3) * 8)) % 0x100, s))
    ∧ (s.cpu.pc < 0x4000 →
      SysBus.read_32F (fuel + 1) s addr
          = (mem_read_32 s.bios (addr &&& 0xfffffffc),
             { s with bios_value := mem_read_32 s.bios (addr &&& 0xfffffffc) })
      ∧ SysBus.read_16F (fuel + 1) s addr
          = ((mem_read_32 s.bios (addr &&& 0xfffffffc) >>> ((addr &&& 2) * 8)) % 0x10000,
             { s with bios_value := mem_read_32 s.bios (addr &&& 0xfffffffc) })
      ∧ SysBus.read_8F (fuel + 1) s addr
          = ((mem_read_32 s.bios (addr &&& 0xfffffffc) >>> ((addr &&& 3) * 8)) % 0x100,
             { s with bios_value := mem_read_32 s.bios (addr &&& 0xfffffffc) })) := by
  have hpage : addr &&& 0xff000000 = 0 := by
    rw [land_ff000000]
    omega
  have ha32 : addr &&& 0xfffffffc = addr / 4 * 4 := by
    rw [land_fffffffc]
    omega
  have ha16 : addr &&& 0xfffffffe = addr / 2 * 2 := by
    rw [land_fffffffe]
    omega
  have hb32 : ¬ (0x3ffc < addr / 4 * 4) := by omega
  have hb16 : ¬ (0x3ffe < addr / 2 * 2) := by omega
  have hb8 : ¬ (0x3fff < addr) := by omega
  constructor
  · intro hpc
    have hnp : ¬ (s.cpu.pc < 0x4000) := by omega
    refine ⟨?_, ?_, ?_⟩
    · simp [SysBus.read_32F, hpage, BIOS_ADDR, ha32, hb32, hnp]
    · simp [SysBus.read_16F, hpage, BIOS_ADDR, ha16, hb16, hnp]
    · simp [SysBus.read_8F, hpage, BIOS_ADDR, hb8, hnp]
  · intro hpc
    refine ⟨?_, ?_, ?_⟩
    · simp [SysBus.read_32F, hpage, BIOS_ADDR, ha32, hb32, hpc]
    · simp [SysBus.read_16F, hpage, BIOS_ADDR, ha16, hb16, ha32, hpc]
    · simp [SysBus.read_8F, hpage, BIOS_ADDR, hb8, ha32, hpc]

/-- C1 witness at `addr = 0x20` on a state whose `pc = 0x08000000`. -/
theorem c1_bios_protection_witness :
    (0x20 : Nat) < 0x4000
    ∧ ((0x4000 ≤ bus0.cpu.pc →
        SysBus.read_32F 1 bus0 0x20 = (bus0.bios_value, bus0)
        ∧ SysBus.read_16F 1 bus0 0x20
            = ((bus0.bios_value >>> ((0x20 &&& 2) * 8)) % 0x10000, bus0)
        ∧ SysBus.read_8F 1 bus0 0x20
            = ((bus0.bios_value >>> ((0x20 &&& 3) * 8)) % 0x100, bus0))
      ∧ (bus0.cpu.pc < 0x4000 →
        SysBus.read_32F 1 bus0 0x20
            = (mem_read_32 bus0.bios (0x20 &&& 0xfffffffc),
               { bus0 with bios_value := mem_read_32 bus0.bios (0x20 &&& 0xfffffffc) })
        ∧ SysBus.read_16F 1 bus0 0x20
            = ((mem_read_32 bus0.bios (0x20 &&& 0xfffffffc) >>> ((0x20 &&& 2) * 8)) % 0x10000,
               { bus0 with bios_value := mem_read_32 bus0.bios (0x20 &&& 0xfffffffc) })
        ∧ SysBus.read_8F 1 bus0 0x20
            = ((mem_read_32 bus0.bios (0x20 &&& 0xfffffffc) >>> ((0x20 &&& 3) * 8)) % 0x100,
               { bus0 with bios_value := mem_read_32 bus0.bios (0x20 &&& 0xfffffffc) }))) :=
  ⟨by omega, c1_bios_protection 0 bus0 0x20 (by omega)⟩

/-! ### Claim C4 — work-RAM round trips through mirrors -/

/-- C4: writing any width to a work-RAM address and reading the same width
back from any address of the same page whose offset is congruent modulo the
region size (0x40000 for EWRAM, 0x8000 for IWRAM) returns the written
value. -/
theorem c4_ram_mirror_roundtrip (fuel : Nat) (s : SysBus) (v a b : Nat) :
    (a &&& 0xff000000 = EWRAM_ADDR → b &&& 0xff000000 = EWRAM_ADDR →
        a % 0x40000 = b % 0x40000 →
      (v < 0x100000000 → (SysBus.read_32F (fuel + 1) (s.write_32 a v) b).1 = v)
      ∧ (v < 0x10000 → (SysBus.read_16F (fuel + 1) (s.write_16 a v) b).1 = v)
      ∧ (v < 0x100 → (SysBus.read_8F (fuel + 1) (s.write_8 a v) b).1 = v))
    ∧ (a &&& 0xff000000 = IWRAM_ADDR → b &&& 0xff000000 = IWRAM_ADDR →
        a % 0x8000 = b % 0x8000 →
      (v < 0x100000000 → (SysBus.read_32F (fuel + 1) (s.write_32 a v) b).1 = v)
      ∧ (v < 0x10000 → (SysBus.read_16F (fuel + 1) (s.write_16 a v) b).1 = v)
      ∧ (v < 0x100 → (SysBus.read_8F (fuel + 1) (s.write_8 a v) b).1 = v)) := by
  constructor
  · intro ha hb hcong
    have h32 : b &&& 0x3fffc = a &&& 0x3fffc := by
      rw [land_3fffc, land_3fffc, hcong]
    have h16 : b &&& 0x3fffe = a &&& 0x3fffe := by
      rw [land_3fffe, land_3fffe, hcong]
    have h8 : b &&& 0x3ffff = a &&& 0x3ffff := by
      rw [land_3ffff, land_3ffff, hcong]
    refine ⟨fun hv => ?_, fun hv => ?_, fun hv => ?_⟩
    · simp [SysBus.write_32, SysBus.read_32F, ha, hb, h32, BIOS_ADDR, EWRAM_ADDR,
        mem_read_write_32 _ _ _ hv]
    · simp [SysBus.write_16, SysBus.read_16F, ha, hb, h16, BIOS_ADDR, EWRAM_ADDR,
        mem_read_write_16 _ _ _ hv]
    · simp [SysBus.write_8, SysBus.read_8F, ha, hb, h8, BIOS_ADDR, EWRAM_ADDR,
        mem_read_write_8 _ _ _ hv]
  · intro ha hb hcong
    have h32 : b &&& 0x7ffc = a &&& 0x7ffc := by
      rw [land_7ffc, land_7ffc, hcong]
    have h16 : b &&& 0x7ffe = a &&& 0x7ffe := by
      rw [land_7ffe, land_7ffe, hcong]
    have h8 : b &&& 0x7fff = a &&& 0x7fff := by
      rw [land_7fff, land_7fff, hcong]
    refine ⟨fun hv => ?_, fun hv => ?_, fun hv => ?_⟩
    · simp [SysBus.write_32, SysBus.read_32F, ha, hb, h32, BIOS_ADDR, EWRAM_ADDR,
        IWRAM_ADDR, mem_read_write_32 _ _ _ hv]
    · simp [SysBus.write_16, SysBus.read_16F, ha, hb, h16, BIOS_ADDR, EWRAM_ADDR,
        IWRAM_ADDR, mem_read_write_16 _ _ _ hv]
    · simp [SysBus.write_8, SysBus.read_8F, ha, hb, h8, BIOS_ADDR, EWRAM_ADDR,
        IWRAM_ADDR, mem_read_write_8 _ _ _ hv]

/-- C4 witness: the EWRAM alias scenario
`write_32(0x02000004, 0xDEADBEEF); read_32(0x02400004) = 0xDEADBEEF` and its
IWRAM counterpart (vacuous here). -/
theorem c4_ram_mirror_roundtrip_witness :
    ((0x02000004 : Nat) &&& 0xff000000 = EWRAM_ADDR)
    ∧ ((0x02400004 : Nat) &&& 0xff000000 = EWRAM_ADDR)
    ∧ ((0x02000004 : Nat) % 0x40000 = (0x02400004 : Nat) % 0x40000)
    ∧ ((0xDEADBEEF : Nat) < 0x100000000)
    ∧ (SysBus.read_32F 1 (bus0.write_32 0x02000004 0xDEADBEEF) 0x02400004).1 = 0xDEADBEEF := by
  refine ⟨by decide, by decide, by decide, by decide, ?_⟩
  exact ((c4_ram_mirror_roundtrip 0 bus0 0xDEADBEEF 0x02000004 0x02400004).1
    (by decide) (by decide) (by decide)).1 (by decide)

/-! ### Claim C6 — open-bus width relation -/

/-- C6: on an unmapped page (top byte at least 0x10) and a fixed CPU pipeline
state, the byte read is the synthesised 32-bit open-bus word of the aligned
address, right-shifted by 8 times the low two address bits and truncated to
8 bits. -/
theorem c6_open_bus_shift (fuel : Nat) (s : SysBus) (a : Nat)
    (h32 : a < 0x100000000) (hpage : 0x10 ≤ a >>> 24) :
    (SysBus.read_8F (fuel + 1) s a).1
      = ((SysBus.read_32F (fuel + 1) s (a &&& 0xfffffffc)).1 >>> ((a &&& 3) * 8)) % 0x100 := by
  have hq : 0x10 ≤ a / 0x1000000 := by
    rw [Nat.shiftRight_eq_div_pow] at hpage
    norm_num at hpage
    exact hpage
  have hm : a &&& 0xff000000 = a / 0x1000000 * 0x1000000 := by
    rw [land_ff000000]
    omega
  have hand1 : (0xfffffffc : Nat) &&& 0xff000000 = 0xff000000 := by decide
  have hand2 : (0xfffffffc : Nat) &&& 3 = 0 := by decide
  have hmm : (a &&& 0xfffffffc) &&& 0xff000000 = a &&& 0xff000000 := by
    rw [Nat.and_assoc, hand1]
  have hlow : (a &&& 0xfffffffc) &&& 3 = 0 := by
    rw [Nat.and_assoc, hand2, Nat.and_zero]
  have hno : ∀ cv : Nat, cv < 0x10000000 → ¬ (a &&& 0xff000000 = cv) := by
    intro cv hcv hEq
    rw [hm] at hEq
    omega
  have d0 := hno BIOS_ADDR (by norm_num [BIOS_ADDR])
  have d2 := hno EWRAM_ADDR (by norm_num [EWRAM_ADDR])
  have d3 := hno IWRAM_ADDR (by norm_num [IWRAM_ADDR])
  have d4 := hno IOMEM_ADDR (by norm_num [IOMEM_ADDR])
  have d5 := hno PALRAM_ADDR (by norm_num [PALRAM_ADDR])
  have d6 := hno VRAM_ADDR (by norm_num [VRAM_ADDR])
  have d7 := hno OAM_ADDR (by norm_num [OAM_ADDR])
  have d8 := hno GAMEPAK_WS0_LO (by norm_num [GAMEPAK_WS0_LO])
  have d9 := hno GAMEPAK_WS0_HI (by norm_num [GAMEPAK_WS0_HI])
  have dA := hno GAMEPAK_WS1_LO (by norm_num [GAMEPAK_WS1_LO])
  have dB := hno GAMEPAK_WS1_HI (by norm_num [GAMEPAK_WS1_HI])
  have dC := hno GAMEPAK_WS2_LO (by norm_num [GAMEPAK_WS2_LO])
  have dD := hno GAMEPAK_WS2_HI (by norm_num [GAMEPAK_WS2_HI])
  have dE := hno SRAM_LO (by norm_num [SRAM_LO])
  have dF := hno SRAM_HI (by norm_num [SRAM_HI])
  simp only [SysBus.read_8F, SysBus.read_32F, hmm, d0, d2, d3, d4, d5, d6, d7, d8,
    d9, dA, dB, dC, dD, dE, dF, if_false, ite_false]
  simp only [load_shifted, hlow, Nat.shiftLeft_eq, Nat.shiftRight_zero]
  norm_num

/-- C6 witness at `a = 0x10000001` with fuel 1. -/
theorem c6_open_bus_shift_witness :
    (0x10000001 : Nat) < 0x100000000
    ∧ 0x10 ≤ (0x10000001 : Nat) >>> 24
    ∧ (SysBus.read_8F 1 bus0 0x10000001).1
        = ((SysBus.read_32F 1 bus0 (0x10000001 &&& 0xfffffffc)).1
            >>> ((0x10000001 &&& 3) * 8)) % 0x100 :=
  ⟨by decide, by decide, c6_open_bus_shift 0 bus0 0x10000001 (by decide) (by decide)⟩

/-! ### Claim C9 — debug reads past ROM end fault -/

def cart9 : Cartridge := ⟨fun _ => 0xAB, 0x8000, none, .Undetected⟩

def bus9 : SysBus := { bus0 with cartridge := cart9 }

/-- C9 (code bug evidence): with a 32 KiB ROM, `debug_read_8(0x09FFFFFF)`
reaches `Cartridge::debug_read_8`, which indexes `bytes[0x1FFFFFF]` out of
bounds and panics (modelled as `none`). -/
theorem c9_debug_read_8_faults : SysBus.debug_read_8 bus9 0x09FFFFFF = none := by
  decide

/-! ### Claim C3 — IOMEM offset decoding -/

def busC3 : SysBus := { bus0 with io := fun i => if i = 0x400 then 0xAB else 0xCD }

/-- C3 counterexample: at `0x04000400` the byte read reaches I/O offset
`0x400` (the code masks with `0x7ff`, i.e. mod 0x800), not offset
`0x04000400 mod 0x400 = 0` as the claim states. -/
theorem c3_counterexample :
    (SysBus.read_8F 1 busC3 0x04000400).1 ≠ busC3.io (0x04000400 % 0x400) := by
  decide

/-- C3 amended: for every address with top byte 0x04, reads and writes access
the I/O block at offset `addr mod 0x800` with the low bits cleared per access
width, except that when the low 16 bits (with the same per-width low bits
cleared) equal `0x8000` the access goes to offset `0x800` instead. -/
theorem c3_iomem_offsets (fuel : Nat) (s : SysBus) (addr v : Nat)
    (hp : addr &&& 0xff000000 = IOMEM_ADDR) :
    (SysBus.read_8F (fuel + 1) s addr
        = (s.io (if addr % 0x10000 = 0x8000 then 0x800 else addr % 0x800), s))
    ∧ (SysBus.read_16F (fuel + 1) s addr
        = (mem_read_16 s.io
            (if addr % 0x10000 / 2 * 2 = 0x8000 then 0x800 else addr % 0x800 / 2 * 2), s))
    ∧ (SysBus.read_32F (fuel + 1) s addr
        = (mem_read_32 s.io
            (if addr % 0x10000 / 4 * 4 = 0x8000 then 0x800 else addr % 0x800 / 4 * 4), s))
    ∧ (SysBus.write_8 s addr v
        = { s with io := (mem_write_8 s.io
            (if addr % 0x10000 = 0x8000 then 0x800 else addr % 0x800) v) })
    ∧ (SysBus.write_16 s addr v
        = { s with io := (mem_write_16 s.io
            (if addr % 0x10000 / 2 * 2 = 0x8000 then 0x800 else addr % 0x800 / 2 * 2) v) })
    ∧ (SysBus.write_32 s addr v
        = { s with io := (mem_write_32 s.io
            (if addr % 0x10000 / 4 * 4 = 0x8000 then 0x800 else addr % 0x800 / 4 * 4) v) }) := by
  refine ⟨?_, ?_, ?_, ?_, ?_, ?_⟩
  · simp [SysBus.read_8F, hp, IOMEM_ADDR, BIOS_ADDR, EWRAM_ADDR, IWRAM_ADDR,
      land_ffff, land_7ff]
  · simp [SysBus.read_16F, hp, IOMEM_ADDR, BIOS_ADDR, EWRAM_ADDR, IWRAM_ADDR,
      land_fffe, land_7fe]
  · simp [SysBus.read_32F, hp, IOMEM_ADDR, BIOS_ADDR, EWRAM_ADDR, IWRAM_ADDR,
      land_fffc, land_7fc]
  · simp [SysBus.write_8, hp, IOMEM_ADDR, BIOS_ADDR, EWRAM_ADDR, IWRAM_ADDR,
      land_ffff, land_7ff]
  · simp [SysBus.write_16, hp, IOMEM_ADDR, BIOS_ADDR, EWRAM_ADDR, IWRAM_ADDR,
      land_fffe, land_7fe]
  · simp [SysBus.write_32, hp, IOMEM_ADDR, BIOS_ADDR, EWRAM_ADDR, IWRAM_ADDR,
      land_fffc, land_7fc]

/-- C3 amended witness at `addr = 0x04000400`. -/
theorem c3_iomem_offsets_witness :
    ((0x04000400 : Nat) &&& 0xff000000 = IOMEM_ADDR)
    ∧ ((SysBus.read_8F 1 bus0 0x04000400
        = (bus0.io (if 0x04000400 % 0x10000 = 0x8000 then 0x800 else 0x04000400 % 0x800), bus0))
      ∧ (SysBus.read_16F 1 bus0 0x04000400
        = (mem_read_16 bus0.io
            (if 0x04000400 % 0x10000 / 2 * 2 = 0x8000 then 0x800
             else 0x04000400 % 0x800 / 2 * 2), bus0))
      ∧ (SysBus.read_32F 1 bus0 0x04000400
        = (mem_read_32 bus0.io
            (if 0x04000400 % 0x10000 / 4 * 4 = 0x8000 then 0x800
             else 0x04000400 % 0x800 / 4 * 4), bus0))
      ∧ (SysBus.write_8 bus0 0x04000400 0x12
        = { bus0 with io := (mem_write_8 bus0.io
            (if 0x04000400 % 0x10000 = 0x8000 then 0x800 else 0x04000400 % 0x800) 0x12) })
      ∧ (SysBus.write_16 bus0 0x04000400 0x12
        = { bus0 with io := (mem_write_16 bus0.io
            (if 0x04000400 % 0x10000 / 2 * 2 = 0x8000 then 0x800
             else 0x04000400 % 0x800 / 2 * 2) 0x12) })
      ∧ (SysBus.write_32 bus0 0x04000400 0x12
        = { bus0 with io := (mem_write_32 bus0.io
            (if 0x04000400 % 0x10000 / 4 * 4 = 0x8000 then 0x800
             else 0x04000400 % 0x800 / 4 * 4) 0x12) })) :=
  ⟨by decide, c3_iomem_offsets 0 bus0 0x04000400 0x12 (by decide)⟩

/-! ### Claim C5 — EEPROM routing -/

/-- An address whose top byte is 0x0D always has bit 24 set inside the 25-bit
gamepak offset, so it can never equal one of the three GPIO register
offsets: the GPIO branch of `Cartridge::read_16`/`write_16` is unreachable
from page 0x0D. -/
theorem gpio_not_ws2hi (addr : Nat)
    (htop : addr &&& 0xff000000 = GAMEPAK_WS2_HI) :
    is_gpio_access addr = false := by
  have h1 : addr &&& 0x1ffffff = addr % 0x2000000 := land_1ffffff addr
  have h2 : addr &&& 0xff000000 = addr % 0x100000000 / 0x1000000 * 0x1000000 :=
    land_ff000000 addr
  have h3 : addr % 0x2000000 = addr % 0x100000000 % 0x2000000 :=
    (Nat.mod_mod_of_dvd addr (by norm_num)).symm
  rw [htop] at h2
  rw [GAMEPAK_WS2_HI] at h2
  have hge : 0x1000000 ≤ addr % 0x2000000 := by omega
  simp only [is_gpio_access, GPIO_PORT_DATA, GPIO_PORT_DIRECTION, GPIO_PORT_CONTROL, h1,
    Bool.or_eq_false_iff, beq_eq_false_iff_ne]
  omega

theorem eeprom_route_tail (c : Cartridge) (addr : Nat) :
    ((if addr &&& 0xff000000 = GAMEPAK_WS2_HI
          ∧ (c.size ≤ 16 * 1024 * 1024 ∨ EEPROM_BASE_ADDR ≤ addr) then
        match c.backup with
        | .Eeprom _ => CartAccessRoute.EepromUnit
        | _ => CartAccessRoute.Fallthrough
      else CartAccessRoute.Fallthrough) = CartAccessRoute.EepromUnit)
      ↔ (isEeprom c.backup = true ∧ addr &&& 0xff000000 = GAMEPAK_WS2_HI
          ∧ (c.size ≤ 16 * 1024 * 1024 ∨ EEPROM_BASE_ADDR ≤ addr)) := by
  split_ifs with hcond
  · cases hb : c.backup <;> simp [isEeprom, hb, hcond]
  · exact ⟨fun h => absurd h (by decide), fun h => absurd ⟨h.2.1, h.2.2⟩ hcond⟩

/-- C5: a 16-bit cartridge read or write is routed to the EEPROM controller
exactly when the backup media is EEPROM, the top address byte is 0x0D, and
the ROM is at most 16 MiB or the address is at least `0x0DFF_FF00`; from the
pages 0x08 through 0x0C the EEPROM controller is never reached. (The GPIO
test that textually precedes the EEPROM test cannot fire on page 0x0D: see
`gpio_not_ws2hi`.) -/
theorem c5_eeprom_routing (c : Cartridge) (addr : Nat) :
    (c.read_16_route addr = CartAccessRoute.EepromUnit ↔
      (isEeprom c.backup = true ∧ addr &&& 0xff000000 = GAMEPAK_WS2_HI
        ∧ (c.size ≤ 16 * 1024 * 1024 ∨ EEPROM_BASE_ADDR ≤ addr)))
    ∧ (c.write_16_route addr = CartAccessRoute.EepromUnit ↔
      (isEeprom c.backup = true ∧ addr &&& 0xff000000 = GAMEPAK_WS2_HI
        ∧ (c.size ≤ 16 * 1024 * 1024 ∨ EEPROM_BASE_ADDR ≤ addr)))
    ∧ ((addr &&& 0xff000000 = GAMEPAK_WS0_LO ∨ addr &&& 0xff000000 = GAMEPAK_WS0_HI
        ∨ addr &&& 0xff000000 = GAMEPAK_WS1_LO ∨ addr &&& 0xff000000 = GAMEPAK_WS1_HI
        ∨ addr &&& 0xff000000 = GAMEPAK_WS2_LO) →
      c.read_16_route addr ≠ CartAccessRoute.EepromUnit
      ∧ c.write_16_route addr ≠ CartAccessRoute.EepromUnit) := by
  have hmain : ∀ r : CartAccessRoute,
      (r = c.read_16_route addr ∨ r = c.write_16_route addr) →
      (r = CartAccessRoute.EepromUnit ↔
        (isEeprom c.backup = true ∧ addr &&& 0xff000000 = GAMEPAK_WS2_HI
          ∧ (c.size ≤ 16 * 1024 * 1024 ∨ EEPROM_BASE_ADDR ≤ addr))) := by
    intro r hr
    by_cases htop : addr &&& 0xff000000 = GAMEPAK_WS2_HI
    · have hng := gpio_not_ws2hi addr htop
      have hroute : r = (if addr &&& 0xff000000 = GAMEPAK_WS2_HI
            ∧ (c.size ≤ 16 * 1024 * 1024 ∨ EEPROM_BASE_ADDR ≤ addr) then
          match c.backup with
          | .Eeprom _ => CartAccessRoute.EepromUnit
          | _ => CartAccessRoute.Fallthrough
        else CartAccessRoute.Fallthrough) := by
        rcases hr with hr | hr <;> rw [hr] <;>
          cases hg : c.gpio <;>
            simp [Cartridge.read_16_route, Cartridge.write_16_route, hg, hng]
      rw [hroute]
      exact eeprom_route_tail c addr
    · rcases hr with hr | hr <;> rw [hr] <;>
        cases hg : c.gpio <;>
          simp [Cartridge.read_16_route, Cartridge.write_16_route, hg, htop] <;>
            try (split_ifs <;> simp)
  refine ⟨hmain _ (Or.inl rfl), hmain _ (Or.inr rfl), ?_⟩
  intro hpages
  have hne : ¬ (addr &&& 0xff000000 = GAMEPAK_WS2_HI) := by
    rcases hpages with h | h | h | h | h <;> rw [h] <;>
      simp [GAMEPAK_WS0_LO, GAMEPAK_WS0_HI, GAMEPAK_WS1_LO, GAMEPAK_WS1_HI,
        GAMEPAK_WS2_LO, GAMEPAK_WS2_HI]
  constructor
  · intro h
    exact hne ((hmain _ (Or.inl rfl)).mp h).2.1
  · intro h
    exact hne ((hmain _ (Or.inr rfl)).mp h).2.1

def cart5 : Cartridge :=
  ⟨fun _ => 0, 0x1000, some ⟨fun _ => 0, true, []⟩, .Eeprom ⟨fun _ => 0, []⟩⟩

/-- C5 witness: a small-ROM EEPROM cartridge with a GPIO port, probed at
`0x0D000000` (whole iff) — a concrete instance of the routing theorem. -/
theorem c5_eeprom_routing_witness :
    (cart5.read_16_route 0x0D000000 = CartAccessRoute.EepromUnit ↔
      (isEeprom cart5.backup = true ∧ (0x0D000000 : Nat) &&& 0xff000000 = GAMEPAK_WS2_HI
        ∧ (cart5.size ≤ 16 * 1024 * 1024 ∨ EEPROM_BASE_ADDR ≤ 0x0D000000)))
    ∧ (cart5.write_16_route 0x0D000000 = CartAccessRoute.EepromUnit ↔
      (isEeprom cart5.backup = true ∧ (0x0D000000 : Nat) &&& 0xff000000 = GAMEPAK_WS2_HI
        ∧ (cart5.size ≤ 16 * 1024 * 1024 ∨ EEPROM_BASE_ADDR ≤ 0x0D000000)))
    ∧ (((0x0D000000 : Nat) &&& 0xff000000 = GAMEPAK_WS0_LO
        ∨ (0x0D000000 : Nat) &&& 0xff000000 = GAMEPAK_WS0_HI
        ∨ (0x0D000000 : Nat) &&& 0xff000000 = GAMEPAK_WS1_LO
        ∨ (0x0D000000 : Nat) &&& 0xff000000 = GAMEPAK_WS1_HI
        ∨ (0x0D000000 : Nat) &&& 0xff000000 = GAMEPAK_WS2_LO) →
      cart5.read_16_route 0x0D000000 ≠ CartAccessRoute.EepromUnit
      ∧ cart5.write_16_route 0x0D000000 ≠ CartAccessRoute.EepromUnit) :=
  c5_eeprom_routing cart5 0x0D000000

/-! ### ARM execution subset (arm7tdmi/arm/exec.rs) -/

inductive CpuError
  | IllegalInstruction
  | UnimplementedCpuInstruction
deriving DecidableEq, Repr

inductive CpuPipelineAction
  | IncPC
  | Flush
deriving DecidableEq, Repr

inductive ArmShiftType
  | LSL
  | LSR
  | ASR
  | ROR
deriving DecidableEq, Repr

inductive ArmRegisterShift
  | ShiftAmount (amount : Nat) (shift : ArmShiftType)
  | ShiftRegister (reg : Nat) (shift : ArmShiftType)

inductive ArmShiftedValue
  | ImmediateValue (v : Int)
  | RotatedImmediate (immediate : Nat) (rotate : Nat)
  | ShiftedRegister (reg : Nat) (shift : ArmRegisterShift) (added : Option Bool)

def REG_PC : Nat := 15

/-- A `u32` bit pattern from an `i32` value. -/
def toU32 (i : Int) : Nat := (i % (2 ^ 32 : Int)).toNat

/-- The `i32` value of a `u32` bit pattern. -/
def toI32 (n : Nat) : Int :=
  if n % 2 ^ 32 < 2 ^ 31 then ((n % 2 ^ 32 : Nat) : Int)
  else ((n % 2 ^ 32 : Nat) : Int) - 2 ^ 32

/-- `u32::rotate_right` (32-bit). -/
def rotateRight32 (x r : Nat) : Nat :=
  let r := r % 32
  ((x >>> r) ||| (x <<< (32 - r))) % 2 ^ 32

/-- `Core::barrel_shift`: Rust `i32` wrapping shifts (shift amounts are taken
mod 32; `ASR` is an arithmetic shift, i.e. flooring division). -/
def barrel_shift (val : Int) (amount : Nat) (shift : ArmShiftType) : Int :=
  match shift with
  | .LSL => toI32 (toU32 val <<< (amount % 32))
  | .LSR => toI32 (toU32 val >>> (amount % 32))
  | .ASR => Int.fdiv val (2 ^ (amount % 32))
  | .ROR => toI32 (rotateRight32 (toU32 val) amount)

/-- The CPU core state the LDR/STR path touches. `regs` holds r0..r14; r15 is
the `pc` field (the source's `get_reg`/`set_reg` treat `REG_PC`
specially). -/
structure Core where
  regs : Nat → Nat
  pc : Nat
  cycles : Nat
  cpsr_state : CpuState

/-- Modelled from the spec: `Core::get_reg` — register read, r15 = pc
(arm7tdmi/cpu.rs is not among the sources). -/
def Core.get_reg (c : Core) (r : Nat) : Nat :=
  if r = REG_PC then c.pc else c.regs r

/-- Modelled from the spec: `Core::set_reg`. -/
def Core.set_reg (c : Core) (r v : Nat) : Core :=
  if r = REG_PC then { c with pc := v } else { c with regs := upd c.regs r v }

/-- Modelled from the spec: `word_size` — 4 bytes in ARM state, 2 in
THUMB. -/
def Core.word_size (c : Core) : Nat :=
  match c.cpsr_state with
  | .ARM => 4
  | .THUMB => 2

/-- Modelled from the spec: the bus surface of the CPU crate (its sysbus is
not among the sources): typed reads/writes over an abstract bus state `β`
and a cycle-cost lookup consulted by `add_cycles`. -/
structure AbstractBus (β : Type) where
  read_8 : β → Nat → Nat
  read_32 : β → Nat → Nat
  write_8 : β → Nat → Nat → β
  write_32 : β → Nat → Nat → β
  cost : Nat → MemoryAccessType → MemoryAccessWidth → Nat

/-- Modelled from the spec: `add_cycles` looks up the cycle cost of the
access and advances the cycle counter. -/
def Core.add_cycles (c : Core) (addr : Nat)
    (cost : Nat → MemoryAccessType → MemoryAccessWidth → Nat)
    (access : MemoryAccessType) (width : MemoryAccessWidth) : Core :=
  { c with cycles := c.cycles + cost addr access width }

/-- Modelled from the spec: `add_cycle` — one internal cycle. -/
def Core.add_cycle (c : Core) : Core := { c with cycles := c.cycles + 1 }

/-- `Core::register_shift`. -/
def Core.register_shift (c : Core) (reg : Nat) (shift : ArmRegisterShift) :
    Except CpuError Int :=
  let val := toI32 (c.get_reg reg)
  match shift with
  | .ShiftAmount amount st => .ok (barrel_shift val amount st)
  | .ShiftRegister r st =>
    if r ≠ REG_PC then .ok (barrel_shift val (c.get_reg r &&& 0xff) st)
    else .error .IllegalInstruction

/-- `Core::get_rn_offset`. The source `unwrap`s / panics on the impossible
shapes; both are modelled as errors. -/
def Core.get_rn_offset (c : Core) (off : ArmShiftedValue) : Except CpuError Int :=
  match off with
  | .ImmediateValue offset => .ok offset
  | .ShiftedRegister reg shift (some added) =>
    match c.register_shift reg shift with
    | .ok abs => .ok (if added then abs else -abs)
    | .error e => .error e
  | _ => .error .IllegalInstruction

/-- The decoded fields of a single-data-transfer instruction that
`exec_ldr_str` consumes (the decoder is not among the sources). -/
structure LdrStrInsn where
  load_flag : Bool
  write_back_flag : Bool
  pre_index_flag : Bool
  transfer_size : Nat
  rd : Nat
  rn : Nat
  ldr_str_offset : ArmShiftedValue

/-- `Core::exec_ldr_str`. Note the two `add_cycles(dest, ...)` calls: they
cost the non-sequential data access at `dest`, the pre-instruction value of
the `rd` register, not at the accessed memory address. -/
def Core.exec_ldr_str {β : Type} (bus : AbstractBus β) (c : Core) (b : β)
    (insn : LdrStrInsn) : Except CpuError (CpuPipelineAction × Core × β) :=
  if insn.write_back_flag ∧ insn.rd = insn.rn then .error .IllegalInstruction
  else
    let addr0 := c.get_reg insn.rn
    let addr0 := if insn.rn = REG_PC then (addr0 + 8) % 2 ^ 32 else addr0
    let dest := c.get_reg insn.rd
    match c.get_rn_offset insn.ldr_str_offset with
    | .error e => .error e
    | .ok offset =>
      let effective_addr := toU32 (toI32 addr0 + offset)
      let addr := if insn.pre_index_flag then effective_addr else addr0
      if insn.load_flag then
        let step :=
          if insn.transfer_size = 1 then
            (c.add_cycles dest bus.cost .NonSeq .MemoryAccess8, bus.read_8 b addr)
          else
            (c.add_cycles dest bus.cost .NonSeq .MemoryAccess32, bus.read_32 b addr)
        let c1 := step.1
        let data := step.2
        let c2 := c1.add_cycles ((c1.pc + c1.word_size) % 2 ^ 32) bus.cost .Seq .MemoryAccess32
        let c3 := c2.set_reg insn.rd data
        let c4 := c3.add_cycle
        if insn.rd = REG_PC then
          let c5 := c4.add_cycles c4.pc bus.cost .Seq .MemoryAccess32
          let c6 := c5.add_cycles ((c5.pc + c5.word_size) % 2 ^ 32) bus.cost .NonSeq .MemoryAccess32
          let c7 := if insn.write_back_flag then c6.set_reg insn.rn effective_addr else c6
          .ok (.Flush, c7, b)
        else
          let c5 := if insn.write_back_flag then c4.set_reg insn.rn effective_addr else c4
          .ok (.IncPC, c5, b)
      else
        let c1 := c.add_cycles addr bus.cost .NonSeq .MemoryAccess32
        let value := c1.get_reg insn.rn
        let step :=
          if insn.transfer_size = 1 then
            (c1.add_cycles dest bus.cost .NonSeq .MemoryAccess8,
             bus.write_8 b addr (value % 0x100))
          else
            (c1.add_cycles dest bus.cost .NonSeq .MemoryAccess32,
             bus.write_32 b addr value)
        let c2 := step.1
        let b2 := step.2
        let c3 := if insn.write_back_flag then c2.set_reg insn.rn effective_addr else c2
        .ok (.IncPC, c3, b2)

/-! ### Claim C8 — LDR cycle accounting -/

def costC8 : Nat → MemoryAccessType → MemoryAccessWidth → Nat :=
  fun a _ _ => if a &&& 0xff000000 = 0x08000000 then 5 else 1

def busC8 : AbstractBus Unit :=
  ⟨fun _ _ => 0, fun _ _ => 0, fun b _ _ => b, fun b _ _ => b, costC8⟩

def coreC8 : Core :=
  ⟨fun r => if r = 1 then 0x08000000 else if r = 2 then 0x03000000 else 0,
   0x03000100, 0, .ARM⟩

def insnC8 : LdrStrInsn := ⟨true, false, true, 4, 1, 2, .ImmediateValue 0⟩

/-- C8 (code bug evidence): a word LDR r1, [r2] with `r2 = 0x03000000`
(IWRAM, cost 1) while the old `r1` holds `0x08000000` (a gamepak page value,
cost 5) accumulates 5 + 1 + 1 = 7 cycles, because the code prices the
non-sequential data access at `dest` — the stale destination-register value —
whereas pricing it at the accessed memory address as the claim states would
give 1 + 1 + 1 = 3. -/
theorem c8_ldr_cycles_cost_dest :
    (match Core.exec_ldr_str busC8 coreC8 () insnC8 with
      | .ok r => r.2.1.cycles
      | .error _ => 0) = 7
    ∧ costC8 0x03000000 MemoryAccessType.NonSeq MemoryAccessWidth.MemoryAccess32
        + costC8 ((coreC8.pc + 4) % 2 ^ 32) MemoryAccessType.Seq MemoryAccessWidth.MemoryAccess32
        + 1 = 3
    ∧ (7 : Nat) ≠ 3 := by
  refine ⟨by decide, by decide, by decide⟩

/-! ### Claim C2 — SRAM wait-state application -/

/-- C2 (code bug evidence): after `on_waitcnt_written` with `sram_wait = 0`,
a 16-bit non-sequential access to the SRAM page `0x0E` costs 1 cycle — the
table entry the duplicated SRAM lines never wrote — while the claimed cost is
`1 + S_GAMEPAK_NSEQ_CYCLES[0] = 5`. -/
theorem c2_sram_wait_not_applied :
    (bus0.on_waitcnt_written waitcnt0).get_cycles 0x0E000000
        MemoryAccessType.NonSeq MemoryAccessWidth.MemoryAccess16 = 1
    ∧ 1 + S_GAMEPAK_NSEQ_CYCLES waitcnt0.sram_wait_control = 5 := by
  constructor
  · rfl
  · rfl

/-! ### Claim C7 — gamepak 32-bit cycle derivation invariant -/

theorem update_gamepak_consistency (t : CycleLookupTables) (w : WaitControl) (p : Nat)
    (h1 : 8 ≤ p) (h2 : p ≤ 13) :
    ((t.update_gamepak_waitstates w).n_cycles32 p
        = (t.update_gamepak_waitstates w).n_cycles16 p
          + (t.update_gamepak_waitstates w).s_cycles16 p)
    ∧ (t.update_gamepak_waitstates w).s_cycles32 p
        = 2 * (t.update_gamepak_waitstates w).s_cycles16 p := by
  interval_cases p <;>
    simp [CycleLookupTables.update_gamepak_waitstates, CycleLookupTables.gamepakStep,
      CycleLookupTables.setN32, CycleLookupTables.setS32, CycleLookupTables.setN16,
      CycleLookupTables.setS16, upd, PAGE_GAMEPAK_WS0, PAGE_GAMEPAK_WS1,
      PAGE_GAMEPAK_WS2, PAGE_SRAM_LO, PAGE_SRAM_HI]

/-- A sequence of `on_waitcnt_written` calls. -/
def SysBus.apply_waitcnt_writes (s : SysBus) (ws : List WaitControl) : SysBus :=
  ws.foldl SysBus.on_waitcnt_written s

/-- C7: after any (non-empty) sequence of `on_waitcnt_written` calls, every
gamepak ROM page `p ∈ [0x08, 0x0D]` satisfies
`n_cycles32[p] = n_cycles16[p] + s_cycles16[p]` and
`s_cycles32[p] = 2 * s_cycles16[p]`. -/
theorem c7_cycle_table_consistency (s : SysBus) (w : WaitControl)
    (ws : List WaitControl) (p : Nat) (h1 : 8 ≤ p) (h2 : p ≤ 13) :
    ((SysBus.apply_waitcnt_writes (s.on_waitcnt_written w) ws).cycle_luts.n_cycles32 p
        = (SysBus.apply_waitcnt_writes (s.on_waitcnt_written w) ws).cycle_luts.n_cycles16 p
          + (SysBus.apply_waitcnt_writes (s.on_waitcnt_written w) ws).cycle_luts.s_cycles16 p)
    ∧ (SysBus.apply_waitcnt_writes (s.on_waitcnt_written w) ws).cycle_luts.s_cycles32 p
        = 2 * (SysBus.apply_waitcnt_writes (s.on_waitcnt_written w) ws).cycle_luts.s_cycles16 p := by
  induction ws generalizing s w with
  | nil =>
    simp only [SysBus.apply_waitcnt_writes, List.foldl, SysBus.on_waitcnt_written]
    exact update_gamepak_consistency s.cycle_luts w p h1 h2
  | cons w2 ws ih =>
    simp only [SysBus.apply_waitcnt_writes, List.foldl] at ih ⊢
    exact ih (s.on_waitcnt_written w) w2

/-- C7 witness: the invariant at page 8 after one concrete call. -/
theorem c7_cycle_table_consistency_witness :
    ((SysBus.apply_waitcnt_writes (bus0.on_waitcnt_written waitcnt0) []).cycle_luts.n_cycles32 8
        = (SysBus.apply_waitcnt_writes (bus0.on_waitcnt_written waitcnt0) []).cycle_luts.n_cycles16 8
          + (SysBus.apply_waitcnt_writes (bus0.on_waitcnt_written waitcnt0) []).cycle_luts.s_cycles16 8)
    ∧ (SysBus.apply_waitcnt_writes (bus0.on_waitcnt_written waitcnt0) []).cycle_luts.s_cycles32 8
        = 2 * (SysBus.apply_waitcnt_writes (bus0.on_waitcnt_written waitcnt0) []).cycle_luts.s_cycles16 8 :=
  c7_cycle_table_consistency bus0 waitcnt0 [] 8 (by omega) (by omega)

/-! ### Claim C10 — wait-control writes leave pages 0x00..0x07 alone -/

/-- C10: `on_waitcnt_written` never changes a cycle-lookup-table entry of the
pages 0x00 through 0x07; only pages 0x08..0x0F are written. -/
theorem c10_waitcnt_preserves_low_pages (s : SysBus) (w : WaitControl) (p : Nat)
    (hp : p < 8) :
    ((s.on_waitcnt_written w).cycle_luts.n_cycles32 p = s.cycle_luts.n_cycles32 p)
    ∧ ((s.on_waitcnt_written w).cycle_luts.s_cycles32 p = s.cycle_luts.s_cycles32 p)
    ∧ ((s.on_waitcnt_written w).cycle_luts.n_cycles16 p = s.cycle_luts.n_cycles16 p)
    ∧ ((s.on_waitcnt_written w).cycle_luts.s_cycles16 p = s.cycle_luts.s_cycles16 p) := by
  interval_cases p <;>
    simp [SysBus.on_waitcnt_written, CycleLookupTables.update_gamepak_waitstates,
      CycleLookupTables.gamepakStep, CycleLookupTables.setN32, CycleLookupTables.setS32,
      CycleLookupTables.setN16, CycleLookupTables.setS16, upd, PAGE_GAMEPAK_WS0,
      PAGE_GAMEPAK_WS1, PAGE_GAMEPAK_WS2, PAGE_SRAM_LO, PAGE_SRAM_HI]

/-- C10 witness: page 3 (IWRAM) is untouched by a concrete call. -/
theorem c10_waitcnt_preserves_low_pages_witness :
    ((bus0.on_waitcnt_written waitcnt0).cycle_luts.n_cycles32 3 = bus0.cycle_luts.n_cycles32 3)
    ∧ ((bus0.on_waitcnt_written waitcnt0).cycle_luts.s_cycles32 3 = bus0.cycle_luts.s_cycles32 3)
    ∧ ((bus0.on_waitcnt_written waitcnt0).cycle_luts.n_cycles16 3 = bus0.cycle_luts.n_cycles16 3)
    ∧ ((bus0.on_waitcnt_written waitcnt0).cycle_luts.s_cycles16 3 = bus0.cycle_luts.s_cycles16 3) :=
  c10_waitcnt_preserves_low_pages bus0 waitcnt0 3 (by omega)

end GbaCore
